import Mathlib

/-!
Verification development for the bandwidth rate-limiting package
(`bandwidth`): a shallow embedding of `config.go`, `listener.go` and the
connection decorator (`connection.go`, both the wired two-limiter variant
and the older single-limiter variant present in the sources), together
with theorems about the embedded operations.

Modelling conventions:
- `rate.Limit` (a float64 with the sentinel `rate.Inf = math.MaxFloat64`)
  is modelled as `Limit`: either the infinity sentinel or an exact
  rational.  Token counts and times are exact rationals (seconds since the
  zero time); Go float64/`time.Duration` rounding is idealized away.
- A Go channel that is closed once and then replaced by the listener is
  modelled as a generation counter: the listener stores `gen`, a
  connection stores the generation of its last-observed channel, and that
  channel is closed exactly when it is older than the listener current one.
- `context.Context` is modelled by its cancellation flag and optional
  deadline, fixed for the duration of one operation (cancellation that
  arrives in the middle of a timed wait is a real-time race not captured
  by the sequential model; cancellation observed at entry of a wait is).
- Each `Read`/`Write` is a pure function of the connection state, the
  listener state, the buffer, the current time and the underlying stream
  outcome; it returns the transferred byte count, the error, both updated
  states, the completion time, and a trace of the effects it performed.
-/

namespace Bandwidth

/-- A rate: bytes per second, or the unlimited sentinel `rate.Inf`. -/
inductive Limit where
  | inf : Limit
  | fin : ℚ → Limit
deriving DecidableEq, Repr

/-- Exact value of math.MaxFloat64 = (2^53 - 1) * 2^971, the float behind
the sentinel `rate.Inf`; only relevant when a limiter with an infinite
rate is advanced over a positive interval (its token gain is capped by the
burst anyway). -/
def maxFloat64 : ℚ := ((2 ^ 1024 - 2 ^ 971 : ℕ) : ℚ)

/-- rate.Limit.tokensFromDuration: tokens accumulated over d seconds. -/
def Limit.tokensFromDuration : Limit → ℚ → ℚ
  | .inf, d => d * maxFloat64
  | .fin q, d => d * q

/-- config (config.go): a validated (limit, burst) pair. -/
structure config where
  limit : Limit
  burst : Int
deriving DecidableEq, Repr

/-- int(limit) for a rate.Limit: float64-to-int conversion truncates
toward zero; NewConfig only applies it to a positive limit, where
truncation agrees with floor. -/
def Limit.toInt : Limit → Int
  | .inf => 0
  | .fin q => q.floor

/-- NewConfig (config.go): normalizes a limit and an optional burst.
Non-positive or infinite limit yields the unlimited config {Inf, 0};
otherwise a positive supplied burst is kept and any other burst defaults
to int(limit). -/
def NewConfig (limit : Limit) (burst : Option Int) : config :=
  match limit with
  | .inf => { limit := .inf, burst := 0 }
  | .fin q =>
    if q ≤ 0 then { limit := .inf, burst := 0 }
    else
      { limit := .fin q
        burst :=
          match burst with
          | some b => if b > 0 then b else (Limit.fin q).toInt
          | none => (Limit.fin q).toInt }

/-- NewUnlimitedConfig (config.go). -/
def NewUnlimitedConfig : config := NewConfig .inf none

/-- config.IsTheSame (config.go): exact equality of both fields. -/
def config.IsTheSame (c other : config) : Bool :=
  decide (c.limit = other.limit) && decide (c.burst = other.burst)

/-- rate.Limiter state: configured limit and burst plus the token-bucket
bookkeeping (tokens available at time `last`). -/
structure Limiter where
  limit : Limit
  burst : Int
  tokens : ℚ
  last : ℚ
deriving DecidableEq, Repr

/-- config.NewRateLimiter (config.go) via rate.NewLimiter: only limit and
burst are set; tokens start at zero at the zero time and fill with
elapsed time. -/
def config.NewRateLimiter (c : config) : Limiter :=
  { limit := c.limit, burst := c.burst, tokens := 0, last := 0 }

/-- rate.Limiter.advance: the token count at time t (capped at burst). -/
def Limiter.advanceTokens (lim : Limiter) (t : ℚ) : ℚ :=
  let last := if t < lim.last then t else lim.last
  let tokens := lim.tokens + lim.limit.tokensFromDuration (t - last)
  if tokens > (lim.burst : ℚ) then (lim.burst : ℚ) else tokens

/-- rate.Limiter.SetLimitAt: advance the bucket to time t, then replace
the limit in place. -/
def Limiter.SetLimit (lim : Limiter) (t : ℚ) (newLimit : Limit) : Limiter :=
  { lim with last := t, tokens := lim.advanceTokens t, limit := newLimit }

/-- rate.Limiter.SetBurstAt: advance the bucket to time t, then replace
the burst in place. -/
def Limiter.SetBurst (lim : Limiter) (t : ℚ) (newBurst : Int) : Limiter :=
  { lim with last := t, tokens := lim.advanceTokens t, burst := newBurst }

/-- context.Context as one operation observes it: whether cancellation has
fired, and the deadline if one is set. -/
structure Ctx where
  canceled : Bool
  deadline : Option ℚ
deriving DecidableEq, Repr

/-- Errors the limiting phase can produce (x/time/rate wait). -/
inductive RError where
  | burstExceeded : Int → Int → RError
  | ctxCanceled : RError
  | exceedDeadline : Int → RError
deriving DecidableEq, Repr

/-- rate.Limiter.WaitN at time t: error when the request exceeds a finite
burst (checked first, fails immediately), when the context is already
canceled, or when the needed delay would overrun the deadline; otherwise
the reservation is taken and the wait completes at the returned time.
A limiter with the infinite limit admits any request at once, bypassing
the burst check and leaving its state untouched. -/
def Limiter.WaitN (lim : Limiter) (ctx : Ctx) (n : Int) (t : ℚ) :
    Except RError (Limiter × ℚ) :=
  if n > lim.burst ∧ lim.limit ≠ Limit.inf then
    .error (.burstExceeded n lim.burst)
  else if ctx.canceled then
    .error .ctxCanceled
  else
    match lim.limit with
    | .inf => .ok (lim, t)
    | .fin q =>
      let tokens := lim.advanceTokens t - n
      let waitDuration := if tokens < 0 then (-tokens) / q else 0
      let withinLimit :=
        match ctx.deadline with
        | none => true
        | some d => decide (waitDuration ≤ d - t)
      if n ≤ lim.burst ∧ withinLimit = true then
        .ok ({ lim with last := t, tokens := tokens }, t + waitDuration)
      else
        .error (.exceedDeadline n)

example : NewConfig (.fin 10) none = { limit := .fin 10, burst := 10 } := by
  with_unfolding_all decide

example : NewConfig (.fin 10) (some 5) = { limit := .fin 10, burst := 5 } := by
  with_unfolding_all decide

example : NewConfig (.fin (-3)) (some 5) = { limit := .inf, burst := 0 } := by
  with_unfolding_all decide

example : NewConfig (.fin (21/2)) none = { limit := .fin (21/2), burst := 10 } := by
  with_unfolding_all decide

example : NewUnlimitedConfig = { limit := .inf, burst := 0 } := by
  with_unfolding_all decide

/-- Effects one Read/Write performs, in order: a wait on the private
limiter, a wait on the shared global limiter, the underlying stream
operation on the requested buffer. -/
inductive Event where
  | localWait : Int → Event
  | globalWait : Int → Event
  | streamOp : List Nat → Event
deriving DecidableEq, Repr

/-- An error returned by Read/Write: either a limiting-phase error or an
error of the underlying stream (opaque, passed through unchanged). -/
inductive OpError where
  | limitErr : RError → OpError
  | streamErr : Nat → OpError
deriving DecidableEq, Repr

/-- listener (listener.go).  The notification channel is modelled by the
generation counter `gen`: closing the current channel and installing a
fresh one is `gen + 1`; a channel of generation g is closed exactly when
g < gen. -/
structure Listener where
  ctx : Ctx
  gen : Nat
  limitReadConn : config
  limitWriteConn : config
  limitReadGlobal : config
  limitWriteGlobal : config
  writeLimiter : Limiter
  readLimiter : Limiter
deriving DecidableEq, Repr

/-- The listener NewListener builds around a non-nil underlying listener:
default infinite global and connection limiters, a fresh channel. -/
def mkListener (ctx : Ctx) : Listener :=
  { ctx := ctx
    gen := 0
    limitReadGlobal := NewUnlimitedConfig
    limitWriteGlobal := NewUnlimitedConfig
    limitReadConn := NewUnlimitedConfig
    limitWriteConn := NewUnlimitedConfig
    readLimiter := NewUnlimitedConfig.NewRateLimiter
    writeLimiter := NewUnlimitedConfig.NewRateLimiter }

/-- NewListener (listener.go): panics (modelled as `none`) when the
underlying listener is nil, otherwise returns the default listener. -/
def NewListener (ctx : Ctx) (l : Option Unit) : Option Listener :=
  l.map fun _ => mkListener ctx

/-- listener.GetConnCfgs: the current channel plus both per-connection
configs, read in one critical section. -/
def Listener.GetConnCfgs (bl : Listener) : Nat × config × config :=
  (bl.gen, bl.limitWriteConn, bl.limitReadConn)

/-- listener.GetGlobalLimits. -/
def Listener.GetGlobalLimits (bl : Listener) : config × config :=
  (bl.limitWriteGlobal, bl.limitReadGlobal)

/-- listener.GetConnLimits. -/
def Listener.GetConnLimits (bl : Listener) : config × config :=
  (bl.limitWriteConn, bl.limitReadConn)

/-- listener.SetGlobalLimits at time t: store both global configs and
mutate both shared limiters in place (SetLimit then SetBurst). -/
def Listener.SetGlobalLimits (bl : Listener) (writeGlobal readGlobal : config)
    (t : ℚ) : Listener :=
  { bl with
    limitWriteGlobal := writeGlobal
    writeLimiter := (bl.writeLimiter.SetLimit t writeGlobal.limit).SetBurst t writeGlobal.burst
    limitReadGlobal := readGlobal
    readLimiter := (bl.readLimiter.SetLimit t readGlobal.limit).SetBurst t readGlobal.burst }

/-- listener.SetConnLimits: when both configs equal the stored ones this
is a no-op; otherwise close the current channel, install a fresh one
(gen + 1) and store the new configs. -/
def Listener.SetConnLimits (bl : Listener) (writeConn readConn : config) : Listener :=
  if bl.limitWriteConn.IsTheSame writeConn && bl.limitReadConn.IsTheSame readConn then
    bl
  else
    { bl with
      gen := bl.gen + 1
      limitWriteConn := writeConn
      limitReadConn := readConn }

/-- listener.WaitWriteN: wait on the shared global write limiter. -/
def Listener.WaitWriteN (bl : Listener) (ctx : Ctx) (n : Int) (t : ℚ) :
    Except RError (Listener × ℚ) :=
  (bl.writeLimiter.WaitN ctx n t).map fun p => ({ bl with writeLimiter := p.1 }, p.2)

/-- listener.WaitReadN: wait on the shared global read limiter. -/
def Listener.WaitReadN (bl : Listener) (ctx : Ctx) (n : Int) (t : ℚ) :
    Except RError (Listener × ℚ) :=
  (bl.readLimiter.WaitN ctx n t).map fun p => ({ bl with readLimiter := p.1 }, p.2)

/-- connection (the wired two-limiter variant): private write and read
limiters, the listener context, and the last-observed channel. -/
structure Connection where
  ctx : Ctx
  connWriteLimiter : Limiter
  connReadLimiter : Limiter
  c : Nat
deriving DecidableEq, Repr

/-- listener.Accept (success path): a connection whose private limiters
are built from the current per-connection configs and which holds the
current channel. -/
def Listener.Accept (bl : Listener) : Connection :=
  { ctx := bl.ctx
    connWriteLimiter := bl.limitWriteConn.NewRateLimiter
    connReadLimiter := bl.limitReadConn.NewRateLimiter
    c := bl.gen }

/-- Whether the channel the connection last observed has been closed. -/
def Connection.fired (bc : Connection) (bl : Listener) : Bool :=
  decide (bc.c < bl.gen)

/-- connection.setLimiter (two-limiter variant): fetch the channel and
both configs from the controller, remember the channel, and apply
SetLimit and SetBurst for the caller direction only; the sibling
direction limiter is untouched. -/
def Connection.setLimiter (bc : Connection) (bl : Listener) (isWriter : Bool)
    (t : ℚ) : Connection :=
  let fetched := bl.GetConnCfgs
  let bc1 : Connection := { bc with c := fetched.1 }
  if isWriter then
    { bc1 with
      connWriteLimiter :=
        (bc1.connWriteLimiter.SetLimit t fetched.2.1.limit).SetBurst t fetched.2.1.burst }
  else
    { bc1 with
      connReadLimiter :=
        (bc1.connReadLimiter.SetLimit t fetched.2.2.limit).SetBurst t fetched.2.2.burst }

/-- The non-blocking select at the top of Read/Write: resync when the
last-observed channel has been closed, otherwise leave the connection
unchanged. -/
def Connection.resync (bc : Connection) (bl : Listener) (isWriter : Bool)
    (t : ℚ) : Connection :=
  if bc.fired bl then bc.setLimiter bl isWriter t else bc

/-- Outcome of one Read/Write: bytes transferred, error, both updated
states, completion time, and the trace of performed effects. -/
structure OpResult where
  bytes : Int
  err : Option OpError
  conn : Connection
  lis : Listener
  tEnd : ℚ
  trace : List Event
deriving DecidableEq, Repr

/-- connection.Write (two-limiter variant): resync if notified, wait on
the private write limiter, then on the global write limiter, then perform
the underlying write; a limiting error short-circuits with 0 bytes. The
underlying stream outcome is the oracle `und` applied to the buffer. -/
def Connection.Write (bc : Connection) (bl : Listener) (b : List Nat) (t : ℚ)
    (und : List Nat → Int × Option Nat) : OpResult :=
  match (bc.resync bl true t).connWriteLimiter.WaitN (bc.resync bl true t).ctx
      (b.length : Int) t with
  | .error e =>
    ⟨0, some (.limitErr e), bc.resync bl true t, bl, t, [.localWait (b.length : Int)]⟩
  | .ok (lw, t1) =>
    match bl.writeLimiter.WaitN (bc.resync bl true t).ctx (b.length : Int) t1 with
    | .error e =>
      ⟨0, some (.limitErr e), { bc.resync bl true t with connWriteLimiter := lw }, bl, t1,
        [.localWait (b.length : Int), .globalWait (b.length : Int)]⟩
    | .ok (gw, t2) =>
      ⟨(und b).1, ((und b).2).map OpError.streamErr,
        { bc.resync bl true t with connWriteLimiter := lw },
        { bl with writeLimiter := gw }, t2,
        [.localWait (b.length : Int), .globalWait (b.length : Int), .streamOp b]⟩

/-- connection.Read (two-limiter variant): same shape as Write in the
read direction. -/
def Connection.Read (bc : Connection) (bl : Listener) (b : List Nat) (t : ℚ)
    (und : List Nat → Int × Option Nat) : OpResult :=
  match (bc.resync bl false t).connReadLimiter.WaitN (bc.resync bl false t).ctx
      (b.length : Int) t with
  | .error e =>
    ⟨0, some (.limitErr e), bc.resync bl false t, bl, t, [.localWait (b.length : Int)]⟩
  | .ok (lw, t1) =>
    match bl.readLimiter.WaitN (bc.resync bl false t).ctx (b.length : Int) t1 with
    | .error e =>
      ⟨0, some (.limitErr e), { bc.resync bl false t with connReadLimiter := lw }, bl, t1,
        [.localWait (b.length : Int), .globalWait (b.length : Int)]⟩
    | .ok (gw, t2) =>
      ⟨(und b).1, ((und b).2).map OpError.streamErr,
        { bc.resync bl false t with connReadLimiter := lw },
        { bl with readLimiter := gw }, t2,
        [.localWait (b.length : Int), .globalWait (b.length : Int), .streamOp b]⟩

/-- connection of the single-limiter variant (the older connection file in
the sources): one private limiter shared by both directions. -/
structure ConnectionV0 where
  ctx : Ctx
  limiter : Limiter
  c : Nat
deriving DecidableEq, Repr

/-- connection.setLimiter (single-limiter variant).  The controller
response GetConnCfg — a listener implementing this narrow interface is
not among the sources — is passed in as the fetched (channel, config)
pair.  The fetched channel is always remembered; the limiter mutation is
skipped when the fetched config already equals the limiter current limit
and burst. -/
def ConnectionV0.setLimiter (bc : ConnectionV0) (fetched : Nat × config)
    (t : ℚ) : ConnectionV0 :=
  let bc1 : ConnectionV0 := { bc with c := fetched.1 }
  if fetched.2.limit = bc1.limiter.limit ∧ fetched.2.burst = bc1.limiter.burst then
    bc1
  else
    { bc1 with
      limiter := (bc1.limiter.SetLimit t fetched.2.limit).SetBurst t fetched.2.burst }

/-! ## Helper lemmas -/

/-- A connection holding the current channel is not resynced. -/
theorem Connection.resync_self (bc : Connection) (bl : Listener) (isW : Bool)
    (t : ℚ) (h : bc.c = bl.gen) : bc.resync bl isW t = bc := by
  simp [Connection.resync, Connection.fired, h]

/-- A wait on a limiter with the infinite limit succeeds at once, leaving
the limiter untouched, when the context is not canceled. -/
theorem Limiter.waitN_inf (lim : Limiter) (ctx : Ctx) (n : Int) (t : ℚ)
    (hc : ctx.canceled = false) (h : lim.limit = Limit.inf) :
    lim.WaitN ctx n t = .ok (lim, t) := by
  unfold Limiter.WaitN
  rw [if_neg (by simp [h]), if_neg (by simp [hc]), h]

/-- A wait within a finite burst on a non-canceled, deadline-free context
takes the reservation and completes after the computed delay. -/
theorem Limiter.waitN_fin_ok (lim : Limiter) (ctx : Ctx) (n : Int) (t : ℚ)
    (q : ℚ) (hc : ctx.canceled = false) (hd : ctx.deadline = none)
    (hle : n ≤ lim.burst) (hl : lim.limit = Limit.fin q) :
    lim.WaitN ctx n t =
      .ok ({ lim with last := t, tokens := lim.advanceTokens t - n },
        t + (if lim.advanceTokens t - n < 0 then -(lim.advanceTokens t - n) / q else 0)) := by
  unfold Limiter.WaitN
  rw [if_neg (fun hcon => absurd hle (not_le.mpr hcon.1)), if_neg (by simp [hc]), hl]
  simp only [hd]
  rw [if_pos ⟨hle, trivial⟩]

/-- A wait on a non-canceled, deadline-free context succeeds whenever the
request does not overrun a finite burst. -/
theorem Limiter.waitN_ok (lim : Limiter) (ctx : Ctx) (n : Int) (t : ℚ)
    (hc : ctx.canceled = false) (hd : ctx.deadline = none)
    (h : n ≤ lim.burst ∨ lim.limit = Limit.inf) :
    ∃ lw t1, lim.WaitN ctx n t = .ok (lw, t1) := by
  rcases hl : lim.limit with _ | q
  · exact ⟨lim, t, lim.waitN_inf ctx n t hc hl⟩
  · have hle : n ≤ lim.burst := by
      rcases h with h | h
      · exact h
      · rw [hl] at h
        cases h
    exact ⟨_, _, lim.waitN_fin_ok ctx n t q hc hd hle hl⟩

/-- A wait for more than a finite burst fails at once with the
capacity-exceeded error, before the context or the bucket is consulted. -/
theorem Limiter.waitN_burst_exceeded (lim : Limiter) (ctx : Ctx) (n : Int)
    (t : ℚ) (hfin : lim.limit ≠ Limit.inf) (hn : n > lim.burst) :
    lim.WaitN ctx n t = .error (.burstExceeded n lim.burst) := by
  unfold Limiter.WaitN
  rw [if_pos ⟨hn, hfin⟩]

/-- Write outcome when the private wait fails. -/
theorem Connection.Write_local_error (bc : Connection) (bl : Listener) (b : List Nat)
    (t : ℚ) (und : List Nat → Int × Option Nat) (e : RError)
    (h : (bc.resync bl true t).connWriteLimiter.WaitN (bc.resync bl true t).ctx
        (b.length : Int) t = .error e) :
    bc.Write bl b t und =
      ⟨0, some (.limitErr e), bc.resync bl true t, bl, t,
        [.localWait (b.length : Int)]⟩ := by
  unfold Connection.Write
  rw [h]

/-- Write outcome when the private wait succeeds and the global wait fails. -/
theorem Connection.Write_global_error (bc : Connection) (bl : Listener) (b : List Nat)
    (t : ℚ) (und : List Nat → Int × Option Nat) (lw : Limiter) (t1 : ℚ) (e : RError)
    (h : (bc.resync bl true t).connWriteLimiter.WaitN (bc.resync bl true t).ctx
        (b.length : Int) t = .ok (lw, t1))
    (hg : bl.writeLimiter.WaitN (bc.resync bl true t).ctx (b.length : Int) t1 = .error e) :
    bc.Write bl b t und =
      ⟨0, some (.limitErr e), { bc.resync bl true t with connWriteLimiter := lw }, bl, t1,
        [.localWait (b.length : Int), .globalWait (b.length : Int)]⟩ := by
  unfold Connection.Write
  simp only [h]
  simp only [hg]

/-- Write outcome when both waits succeed. -/
theorem Connection.Write_ok (bc : Connection) (bl : Listener) (b : List Nat)
    (t : ℚ) (und : List Nat → Int × Option Nat) (lw : Limiter) (t1 : ℚ)
    (gw : Limiter) (t2 : ℚ)
    (h : (bc.resync bl true t).connWriteLimiter.WaitN (bc.resync bl true t).ctx
        (b.length : Int) t = .ok (lw, t1))
    (hg : bl.writeLimiter.WaitN (bc.resync bl true t).ctx (b.length : Int) t1 = .ok (gw, t2)) :
    bc.Write bl b t und =
      ⟨(und b).1, ((und b).2).map OpError.streamErr,
        { bc.resync bl true t with connWriteLimiter := lw },
        { bl with writeLimiter := gw }, t2,
        [.localWait (b.length : Int), .globalWait (b.length : Int), .streamOp b]⟩ := by
  unfold Connection.Write
  simp only [h]
  simp only [hg]

/-- Read outcome when the private wait fails. -/
theorem Connection.Read_local_error (bc : Connection) (bl : Listener) (b : List Nat)
    (t : ℚ) (und : List Nat → Int × Option Nat) (e : RError)
    (h : (bc.resync bl false t).connReadLimiter.WaitN (bc.resync bl false t).ctx
        (b.length : Int) t = .error e) :
    bc.Read bl b t und =
      ⟨0, some (.limitErr e), bc.resync bl false t, bl, t,
        [.localWait (b.length : Int)]⟩ := by
  unfold Connection.Read
  rw [h]

/-- Read outcome when the private wait succeeds and the global wait fails. -/
theorem Connection.Read_global_error (bc : Connection) (bl : Listener) (b : List Nat)
    (t : ℚ) (und : List Nat → Int × Option Nat) (lw : Limiter) (t1 : ℚ) (e : RError)
    (h : (bc.resync bl false t).connReadLimiter.WaitN (bc.resync bl false t).ctx
        (b.length : Int) t = .ok (lw, t1))
    (hg : bl.readLimiter.WaitN (bc.resync bl false t).ctx (b.length : Int) t1 = .error e) :
    bc.Read bl b t und =
      ⟨0, some (.limitErr e), { bc.resync bl false t with connReadLimiter := lw }, bl, t1,
        [.localWait (b.length : Int), .globalWait (b.length : Int)]⟩ := by
  unfold Connection.Read
  simp only [h]
  simp only [hg]

/-- Read outcome when both waits succeed. -/
theorem Connection.Read_ok (bc : Connection) (bl : Listener) (b : List Nat)
    (t : ℚ) (und : List Nat → Int × Option Nat) (lw : Limiter) (t1 : ℚ)
    (gw : Limiter) (t2 : ℚ)
    (h : (bc.resync bl false t).connReadLimiter.WaitN (bc.resync bl false t).ctx
        (b.length : Int) t = .ok (lw, t1))
    (hg : bl.readLimiter.WaitN (bc.resync bl false t).ctx (b.length : Int) t1 = .ok (gw, t2)) :
    bc.Read bl b t und =
      ⟨(und b).1, ((und b).2).map OpError.streamErr,
        { bc.resync bl false t with connReadLimiter := lw },
        { bl with readLimiter := gw }, t2,
        [.localWait (b.length : Int), .globalWait (b.length : Int), .streamOp b]⟩ := by
  unfold Connection.Read
  simp only [h]
  simp only [hg]

/-! ## Claim theorems -/

/-- C5: SetConnLimits is a no-op (stored quotas and notification channel
both unchanged) exactly when both supplied quotas are value-equal to the
current canonical per-connection quotas; otherwise it retires the current
channel, installs a fresh one (gen + 1, so every connection holding the
old channel observes it as fired) and stores both new quotas, leaving the
global state untouched. -/
theorem setConnLimits_noop_or_swap :
    ∀ (bl : Listener) (w r : config),
      ((bl.limitWriteConn.IsTheSame w && bl.limitReadConn.IsTheSame r) = true →
        bl.SetConnLimits w r = bl) ∧
      ((bl.limitWriteConn.IsTheSame w && bl.limitReadConn.IsTheSame r) = false →
        (bl.SetConnLimits w r).gen = bl.gen + 1 ∧
        (bl.SetConnLimits w r).limitWriteConn = w ∧
        (bl.SetConnLimits w r).limitReadConn = r ∧
        (bl.SetConnLimits w r).limitWriteGlobal = bl.limitWriteGlobal ∧
        (bl.SetConnLimits w r).limitReadGlobal = bl.limitReadGlobal ∧
        (bl.SetConnLimits w r).writeLimiter = bl.writeLimiter ∧
        (bl.SetConnLimits w r).readLimiter = bl.readLimiter ∧
        (bl.SetConnLimits w r).ctx = bl.ctx ∧
        (∀ bc : Connection, bc.c = bl.gen →
          bc.fired (bl.SetConnLimits w r) = true)) := by
  intro bl w r
  constructor
  · intro h
    simp [Listener.SetConnLimits, h]
  · intro h
    have hset : bl.SetConnLimits w r =
        { bl with gen := bl.gen + 1, limitWriteConn := w, limitReadConn := r } := by
      simp [Listener.SetConnLimits, h]
    rw [hset]
    refine ⟨rfl, rfl, rfl, rfl, rfl, rfl, rfl, rfl, ?_⟩
    intro bc hbc
    simp only [Connection.fired, hbc, decide_eq_true_eq]
    omega

/-- C6: SetGlobalLimits replaces both canonical global quotas and sets the
rate and burst of both shared global limiters in place, while the
notification channel, both canonical per-connection quotas and the context
are unchanged. -/
theorem setGlobalLimits_frame :
    ∀ (bl : Listener) (w r : config) (t : ℚ),
      (bl.SetGlobalLimits w r t).limitWriteGlobal = w ∧
      (bl.SetGlobalLimits w r t).limitReadGlobal = r ∧
      (bl.SetGlobalLimits w r t).writeLimiter.limit = w.limit ∧
      (bl.SetGlobalLimits w r t).writeLimiter.burst = w.burst ∧
      (bl.SetGlobalLimits w r t).readLimiter.limit = r.limit ∧
      (bl.SetGlobalLimits w r t).readLimiter.burst = r.burst ∧
      (bl.SetGlobalLimits w r t).gen = bl.gen ∧
      (bl.SetGlobalLimits w r t).limitWriteConn = bl.limitWriteConn ∧
      (bl.SetGlobalLimits w r t).limitReadConn = bl.limitReadConn ∧
      (bl.SetGlobalLimits w r t).ctx = bl.ctx := by
  intro bl w r t
  simp [Listener.SetGlobalLimits, Limiter.SetBurst, Limiter.SetLimit]

/-- C7 counterexample: at the finite rate 21/2 with no supplied burst the
resulting burst is the truncation 10, which does not equal the rate, so
the claim that the defaulted burst always equals the rate fails. -/
theorem newConfig_burst_ne_rate_cex :
    (NewConfig (.fin (21/2)) none).limit = Limit.fin (21/2) ∧
    (NewConfig (.fin (21/2)) none).burst = 10 ∧
    ((10 : ℚ) ≠ 21/2) := by
  with_unfolding_all decide

/-- C7 (amended): non-positive or infinite rates normalize to the
unlimited quota {Inf, 0} regardless of the supplied burst; a finite
positive rate is kept, with the burst defaulting to the integer truncation
of the rate (equal to the rate exactly when the rate is whole) when no
burst or a non-positive burst is supplied, and a positive supplied burst
kept as given. -/
theorem newConfig_normalization :
    (∀ (q : ℚ) (b : Option Int), q ≤ 0 →
      NewConfig (.fin q) b = { limit := .inf, burst := 0 }) ∧
    (∀ b : Option Int, NewConfig .inf b = { limit := .inf, burst := 0 }) ∧
    (∀ q : ℚ, 0 < q →
      (NewConfig (.fin q) none).limit = .fin q ∧
      (NewConfig (.fin q) none).burst = q.floor) ∧
    (∀ (q : ℚ) (k : Int), 0 < q → k ≤ 0 →
      (NewConfig (.fin q) (some k)).limit = .fin q ∧
      (NewConfig (.fin q) (some k)).burst = q.floor) ∧
    (∀ (q : ℚ) (k : Int), 0 < q → 0 < k →
      (NewConfig (.fin q) (some k)).limit = .fin q ∧
      (NewConfig (.fin q) (some k)).burst = k) := by
  refine ⟨?_, ?_, ?_, ?_, ?_⟩
  · intro q b h
    simp [NewConfig, h]
  · intro b
    simp [NewConfig]
  · intro q h
    simp [NewConfig, not_le.mpr h, Limit.toInt]
  · intro q k hq hk
    simp [NewConfig, not_le.mpr hq, not_lt.mpr hk, Limit.toInt]
  · intro q k hq hk
    simp [NewConfig, not_le.mpr hq, hk, Limit.toInt]

/-- C9: NewListener fails (the panic, modelled as none) exactly when the
underlying listener is nil; for every non-nil underlying listener and
every context it returns the default listener without failing. -/
theorem newListener_nil_check :
    ∀ (ctx : Ctx) (l : Option Unit),
      (NewListener ctx l = none ↔ l = none) ∧
      (l = some () → NewListener ctx l = some (mkListener ctx)) := by
  intro ctx l
  cases l <;> simp [NewListener]

/-- Concrete connection for the C2 counterexample: its private write
limiter already has exactly the canonical write quota of blEq. -/
def bcEq : Connection :=
  { ctx := { canceled := false, deadline := none }
    connWriteLimiter := { limit := .fin 1, burst := 1, tokens := 0, last := 0 }
    connReadLimiter := { limit := .inf, burst := 0, tokens := 0, last := 0 }
    c := 0 }

/-- Concrete listener for the C2 counterexample. -/
def blEq : Listener :=
  { ctx := { canceled := false, deadline := none }
    gen := 1
    limitReadConn := { limit := .inf, burst := 0 }
    limitWriteConn := { limit := .fin 1, burst := 1 }
    limitReadGlobal := NewUnlimitedConfig
    limitWriteGlobal := NewUnlimitedConfig
    writeLimiter := NewUnlimitedConfig.NewRateLimiter
    readLimiter := NewUnlimitedConfig.NewRateLimiter }

/-- C2 counterexample: the fetched canonical write quota equals the
private write limiter current rate and burst, yet the wired setLimiter
still mutates the limiter (its bucket bookkeeping changes), so the
claimed skip does not happen in the resync step that Read/Write runs. -/
theorem setLimiter_mutates_when_equal_cex :
    blEq.limitWriteConn.limit = bcEq.connWriteLimiter.limit ∧
    blEq.limitWriteConn.burst = bcEq.connWriteLimiter.burst ∧
    (bcEq.setLimiter blEq true 1).connWriteLimiter ≠ bcEq.connWriteLimiter := by
  with_unfolding_all decide

/-- C2 (amended): in the wired two-limiter resync step the newly fetched
channel is always remembered, but the limiter mutation is never skipped:
SetLimit and SetBurst are applied unconditionally to the caller direction
limiter (advancing its bucket even when rate and burst are unchanged),
while the sibling direction limiter is untouched.  The skip-if-equal
behaviour exists only in the single-limiter connection variant, which
leaves its limiter untouched when the fetched quota equals the current
rate and burst and also always remembers the fetched channel. -/
theorem setLimiter_applies_and_remembers :
    (∀ (bc : Connection) (bl : Listener) (isW : Bool) (t : ℚ),
      (bc.setLimiter bl isW t).c = bl.gen ∧
      (isW = true →
        (bc.setLimiter bl isW t).connWriteLimiter =
          (bc.connWriteLimiter.SetLimit t bl.limitWriteConn.limit).SetBurst t
            bl.limitWriteConn.burst ∧
        (bc.setLimiter bl isW t).connReadLimiter = bc.connReadLimiter) ∧
      (isW = false →
        (bc.setLimiter bl isW t).connReadLimiter =
          (bc.connReadLimiter.SetLimit t bl.limitReadConn.limit).SetBurst t
            bl.limitReadConn.burst ∧
        (bc.setLimiter bl isW t).connWriteLimiter = bc.connWriteLimiter)) ∧
    (∀ (v0 : ConnectionV0) (fetched : Nat × config) (t : ℚ),
      (v0.setLimiter fetched t).c = fetched.1 ∧
      (fetched.2.limit = v0.limiter.limit → fetched.2.burst = v0.limiter.burst →
        (v0.setLimiter fetched t).limiter = v0.limiter)) := by
  constructor
  · intro bc bl isW t
    cases isW <;> simp [Connection.setLimiter, Listener.GetConnCfgs]
  · intro v0 fetched t
    constructor
    · by_cases h : fetched.2.limit = v0.limiter.limit ∧ fetched.2.burst = v0.limiter.burst <;>
        simp [ConnectionV0.setLimiter, h]
    · intro h1 h2
      simp [ConnectionV0.setLimiter, h1, h2]

/-- C3: every Read/Write either fails in the limiting phase — returning
exactly 0 bytes with that limiting error, the underlying stream never
invoked — or, when limiting succeeds, performs the underlying operation on
the unmodified buffer and returns its byte count and error exactly as
reported. -/
theorem write_read_limit_shortcircuit :
    ∀ (bc : Connection) (bl : Listener) (b : List Nat) (t : ℚ)
      (und : List Nat → Int × Option Nat),
      ((∃ e : RError, (bc.Write bl b t und).bytes = 0 ∧
          (bc.Write bl b t und).err = some (.limitErr e) ∧
          Event.streamOp b ∉ (bc.Write bl b t und).trace) ∨
        ((bc.Write bl b t und).bytes = (und b).1 ∧
          (bc.Write bl b t und).err = ((und b).2).map OpError.streamErr ∧
          Event.streamOp b ∈ (bc.Write bl b t und).trace)) ∧
      ((∃ e : RError, (bc.Read bl b t und).bytes = 0 ∧
          (bc.Read bl b t und).err = some (.limitErr e) ∧
          Event.streamOp b ∉ (bc.Read bl b t und).trace) ∨
        ((bc.Read bl b t und).bytes = (und b).1 ∧
          (bc.Read bl b t und).err = ((und b).2).map OpError.streamErr ∧
          Event.streamOp b ∈ (bc.Read bl b t und).trace)) := by
  intro bc bl b t und
  constructor
  · rcases hw : (bc.resync bl true t).connWriteLimiter.WaitN (bc.resync bl true t).ctx
        (b.length : Int) t with e | ⟨lw, t1⟩
    · rw [Connection.Write_local_error bc bl b t und e hw]
      exact .inl ⟨e, rfl, rfl, by simp⟩
    · rcases hg : bl.writeLimiter.WaitN (bc.resync bl true t).ctx (b.length : Int) t1 with
          e | ⟨gw, t2⟩
      · rw [Connection.Write_global_error bc bl b t und lw t1 e hw hg]
        exact .inl ⟨e, rfl, rfl, by simp⟩
      · rw [Connection.Write_ok bc bl b t und lw t1 gw t2 hw hg]
        exact .inr ⟨rfl, rfl, by simp⟩
  · rcases hw : (bc.resync bl false t).connReadLimiter.WaitN (bc.resync bl false t).ctx
        (b.length : Int) t with e | ⟨lw, t1⟩
    · rw [Connection.Read_local_error bc bl b t und e hw]
      exact .inl ⟨e, rfl, rfl, by simp⟩
    · rcases hg : bl.readLimiter.WaitN (bc.resync bl false t).ctx (b.length : Int) t1 with
          e | ⟨gw, t2⟩
      · rw [Connection.Read_global_error bc bl b t und lw t1 e hw hg]
        exact .inl ⟨e, rfl, rfl, by simp⟩
      · rw [Connection.Read_ok bc bl b t und lw t1 gw t2 hw hg]
        exact .inr ⟨rfl, rfl, by simp⟩

/-- C4: within one Read/Write the global limiter is waited on only after
the private limiter wait for the same byte count returned successfully
(the trace then starts localWait, globalWait); when the private wait
fails, no global wait appears in the trace and the listener state —
including the shared global limiters — is returned unchanged: no tokens
are requested from the shared budget. -/
theorem local_wait_precedes_global :
    ∀ (bc : Connection) (bl : Listener) (b : List Nat) (t : ℚ)
      (und : List Nat → Int × Option Nat),
      (Event.globalWait (b.length : Int) ∈ (bc.Write bl b t und).trace →
        ∃ lw t1,
          (bc.resync bl true t).connWriteLimiter.WaitN (bc.resync bl true t).ctx
              (b.length : Int) t = .ok (lw, t1) ∧
          (bc.Write bl b t und).trace.take 2 =
            [Event.localWait (b.length : Int), Event.globalWait (b.length : Int)]) ∧
      (∀ e : RError,
        (bc.resync bl true t).connWriteLimiter.WaitN (bc.resync bl true t).ctx
            (b.length : Int) t = .error e →
        (bc.Write bl b t und).trace = [Event.localWait (b.length : Int)] ∧
        (bc.Write bl b t und).lis = bl) ∧
      (Event.globalWait (b.length : Int) ∈ (bc.Read bl b t und).trace →
        ∃ lw t1,
          (bc.resync bl false t).connReadLimiter.WaitN (bc.resync bl false t).ctx
              (b.length : Int) t = .ok (lw, t1) ∧
          (bc.Read bl b t und).trace.take 2 =
            [Event.localWait (b.length : Int), Event.globalWait (b.length : Int)]) ∧
      (∀ e : RError,
        (bc.resync bl false t).connReadLimiter.WaitN (bc.resync bl false t).ctx
            (b.length : Int) t = .error e →
        (bc.Read bl b t und).trace = [Event.localWait (b.length : Int)] ∧
        (bc.Read bl b t und).lis = bl) := by
  intro bc bl b t und
  refine ⟨?_, ?_, ?_, ?_⟩
  · rcases hw : (bc.resync bl true t).connWriteLimiter.WaitN (bc.resync bl true t).ctx
        (b.length : Int) t with e | ⟨lw, t1⟩
    · rw [Connection.Write_local_error bc bl b t und e hw]
      intro hmem
      simp at hmem
    · rcases hg : bl.writeLimiter.WaitN (bc.resync bl true t).ctx (b.length : Int) t1 with
          e | ⟨gw, t2⟩
      · rw [Connection.Write_global_error bc bl b t und lw t1 e hw hg]
        exact fun _ => ⟨lw, t1, rfl, rfl⟩
      · rw [Connection.Write_ok bc bl b t und lw t1 gw t2 hw hg]
        exact fun _ => ⟨lw, t1, rfl, rfl⟩
  · rcases hw : (bc.resync bl true t).connWriteLimiter.WaitN (bc.resync bl true t).ctx
        (b.length : Int) t with e | ⟨lw, t1⟩
    · rw [Connection.Write_local_error bc bl b t und e hw]
      exact fun e0 h0 => ⟨rfl, rfl⟩
    · intro e0 h0
      exact Except.noConfusion h0
  · rcases hw : (bc.resync bl false t).connReadLimiter.WaitN (bc.resync bl false t).ctx
        (b.length : Int) t with e | ⟨lw, t1⟩
    · rw [Connection.Read_local_error bc bl b t und e hw]
      intro hmem
      simp at hmem
    · rcases hg : bl.readLimiter.WaitN (bc.resync bl false t).ctx (b.length : Int) t1 with
          e | ⟨gw, t2⟩
      · rw [Connection.Read_global_error bc bl b t und lw t1 e hw hg]
        exact fun _ => ⟨lw, t1, rfl, rfl⟩
      · rw [Connection.Read_ok bc bl b t und lw t1 gw t2 hw hg]
        exact fun _ => ⟨lw, t1, rfl, rfl⟩
  · rcases hw : (bc.resync bl false t).connReadLimiter.WaitN (bc.resync bl false t).ctx
        (b.length : Int) t with e | ⟨lw, t1⟩
    · rw [Connection.Read_local_error bc bl b t und e hw]
      exact fun e0 h0 => ⟨rfl, rfl⟩
    · intro e0 h0
      exact Except.noConfusion h0

/-- C8: when the effective limiter in the operation direction — the
private one, or the shared global one reached once the private wait can
succeed — has a finite rate and a burst smaller than the buffer length,
the operation fails with the capacity-exceeded error naming that burst,
returns 0 bytes and never invokes the underlying stream; when the private
limiter is the oversized one the failure is immediate: the completion
time equals the start time. -/
theorem oversize_request_rejected :
    ∀ (bc : Connection) (bl : Listener) (b : List Nat) (t : ℚ)
      (und : List Nat → Int × Option Nat),
      bc.ctx.canceled = false →
      bc.ctx.deadline = none →
      bc.c = bl.gen →
      ((bc.connWriteLimiter.limit ≠ Limit.inf →
          (b.length : Int) > bc.connWriteLimiter.burst →
          (bc.Write bl b t und).bytes = 0 ∧
          (bc.Write bl b t und).err =
            some (.limitErr (.burstExceeded (b.length : Int) bc.connWriteLimiter.burst)) ∧
          Event.streamOp b ∉ (bc.Write bl b t und).trace ∧
          (bc.Write bl b t und).tEnd = t) ∧
        (((b.length : Int) ≤ bc.connWriteLimiter.burst ∨ bc.connWriteLimiter.limit = Limit.inf) →
          bl.writeLimiter.limit ≠ Limit.inf →
          (b.length : Int) > bl.writeLimiter.burst →
          (bc.Write bl b t und).bytes = 0 ∧
          (bc.Write bl b t und).err =
            some (.limitErr (.burstExceeded (b.length : Int) bl.writeLimiter.burst)) ∧
          Event.streamOp b ∉ (bc.Write bl b t und).trace)) ∧
      ((bc.connReadLimiter.limit ≠ Limit.inf →
          (b.length : Int) > bc.connReadLimiter.burst →
          (bc.Read bl b t und).bytes = 0 ∧
          (bc.Read bl b t und).err =
            some (.limitErr (.burstExceeded (b.length : Int) bc.connReadLimiter.burst)) ∧
          Event.streamOp b ∉ (bc.Read bl b t und).trace ∧
          (bc.Read bl b t und).tEnd = t) ∧
        (((b.length : Int) ≤ bc.connReadLimiter.burst ∨ bc.connReadLimiter.limit = Limit.inf) →
          bl.readLimiter.limit ≠ Limit.inf →
          (b.length : Int) > bl.readLimiter.burst →
          (bc.Read bl b t und).bytes = 0 ∧
          (bc.Read bl b t und).err =
            some (.limitErr (.burstExceeded (b.length : Int) bl.readLimiter.burst)) ∧
          Event.streamOp b ∉ (bc.Read bl b t und).trace)) := by
  intro bc bl b t und hc hd hcg
  have hres : ∀ isW, bc.resync bl isW t = bc :=
    fun isW => Connection.resync_self bc bl isW t hcg
  refine ⟨⟨?_, ?_⟩, ?_, ?_⟩
  · intro hfin hover
    have hw := bc.connWriteLimiter.waitN_burst_exceeded bc.ctx (b.length : Int) t hfin hover
    rw [Connection.Write_local_error bc bl b t und _ (by rw [hres]; exact hw)]
    exact ⟨rfl, rfl, by simp, rfl⟩
  · intro hloc hfin hover
    obtain ⟨lw, t1, hwo⟩ :=
      bc.connWriteLimiter.waitN_ok bc.ctx (b.length : Int) t hc hd hloc
    have hg := bl.writeLimiter.waitN_burst_exceeded bc.ctx (b.length : Int) t1 hfin hover
    rw [Connection.Write_global_error bc bl b t und lw t1 _
      (by rw [hres]; exact hwo) (by rw [hres]; exact hg)]
    exact ⟨rfl, rfl, by simp⟩
  · intro hfin hover
    have hw := bc.connReadLimiter.waitN_burst_exceeded bc.ctx (b.length : Int) t hfin hover
    rw [Connection.Read_local_error bc bl b t und _ (by rw [hres]; exact hw)]
    exact ⟨rfl, rfl, by simp, rfl⟩
  · intro hloc hfin hover
    obtain ⟨lw, t1, hwo⟩ :=
      bc.connReadLimiter.waitN_ok bc.ctx (b.length : Int) t hc hd hloc
    have hg := bl.readLimiter.waitN_burst_exceeded bc.ctx (b.length : Int) t1 hfin hover
    rw [Connection.Read_global_error bc bl b t und lw t1 _
      (by rw [hres]; exact hwo) (by rw [hres]; exact hg)]
    exact ⟨rfl, rfl, by simp⟩

/-- Context of the concrete scenarios: not canceled, no deadline. -/
def ctxLive : Ctx := { canceled := false, deadline := none }

/-- Underlying stream oracle for the concrete scenarios: transfers the
whole buffer, no error. -/
def undEcho : List Nat → Int × Option Nat := fun b => ((b.length : Int), none)

/-- Listener whose per-connection quotas are rate 10 burst 5 in both
directions (the spec burst-rejection scenario). -/
def blSmallBurst : Listener :=
  (mkListener ctxLive).SetConnLimits (NewConfig (.fin 10) (some 5))
    (NewConfig (.fin 10) (some 5))

/-- Connection accepted from blSmallBurst. -/
def bcSmallBurst : Connection := blSmallBurst.Accept

/-- A 10-byte buffer. -/
def bufTen : List Nat := List.replicate 10 0

/-- C8 witness: on a connection whose private quota is rate 10 burst 5, a
single 10-byte Write fails at the start time with the capacity-exceeded
error, transfers nothing and never reaches the stream. -/
theorem oversize_request_rejected_witness :
    (bcSmallBurst.Write blSmallBurst bufTen 0 undEcho).bytes = 0 ∧
    (bcSmallBurst.Write blSmallBurst bufTen 0 undEcho).err =
      some (.limitErr (.burstExceeded (bufTen.length : Int)
        bcSmallBurst.connWriteLimiter.burst)) ∧
    Event.streamOp bufTen ∉ (bcSmallBurst.Write blSmallBurst bufTen 0 undEcho).trace ∧
    (bcSmallBurst.Write blSmallBurst bufTen 0 undEcho).tEnd = 0 :=
  (oversize_request_rejected bcSmallBurst blSmallBurst bufTen 0 undEcho
      (by with_unfolding_all decide) (by with_unfolding_all decide)
      (by with_unfolding_all decide)).1.1
    (by with_unfolding_all decide) (by with_unfolding_all decide)

/-- C10: a connection whose private limiter and whose direction global
limiter both carry the infinite rate admits a Read/Write of any buffer
length with no waiting (completion time equals start time) and no
capacity-exceeded error, whatever the configured bursts are: the
underlying outcome is returned as is. -/
theorem unlimited_limiters_admit_any_size :
    ∀ (bc : Connection) (bl : Listener) (b : List Nat) (t : ℚ)
      (und : List Nat → Int × Option Nat),
      bc.ctx.canceled = false →
      bc.c = bl.gen →
      bc.connWriteLimiter.limit = Limit.inf →
      bc.connReadLimiter.limit = Limit.inf →
      bl.writeLimiter.limit = Limit.inf →
      bl.readLimiter.limit = Limit.inf →
      ((bc.Write bl b t und).bytes = (und b).1 ∧
        (bc.Write bl b t und).err = ((und b).2).map OpError.streamErr ∧
        (bc.Write bl b t und).tEnd = t ∧
        Event.streamOp b ∈ (bc.Write bl b t und).trace) ∧
      ((bc.Read bl b t und).bytes = (und b).1 ∧
        (bc.Read bl b t und).err = ((und b).2).map OpError.streamErr ∧
        (bc.Read bl b t und).tEnd = t ∧
        Event.streamOp b ∈ (bc.Read bl b t und).trace) := by
  intro bc bl b t und hc hcg hwl hrl hgw hgr
  have hres : ∀ isW, bc.resync bl isW t = bc :=
    fun isW => Connection.resync_self bc bl isW t hcg
  constructor
  · have hw := bc.connWriteLimiter.waitN_inf bc.ctx (b.length : Int) t hc hwl
    have hg := bl.writeLimiter.waitN_inf bc.ctx (b.length : Int) t hc hgw
    rw [Connection.Write_ok bc bl b t und bc.connWriteLimiter t bl.writeLimiter t
      (by rw [hres]; exact hw) (by rw [hres]; exact hg)]
    exact ⟨rfl, rfl, rfl, by simp⟩
  · have hw := bc.connReadLimiter.waitN_inf bc.ctx (b.length : Int) t hc hrl
    have hg := bl.readLimiter.waitN_inf bc.ctx (b.length : Int) t hc hgr
    rw [Connection.Read_ok bc bl b t und bc.connReadLimiter t bl.readLimiter t
      (by rw [hres]; exact hw) (by rw [hres]; exact hg)]
    exact ⟨rfl, rfl, rfl, by simp⟩

/-- The freshly constructed listener of the concrete scenarios. -/
def blFresh : Listener := mkListener ctxLive

/-- Connection accepted from the fresh listener: default configuration,
all limiters unlimited with burst 0. -/
def bcFresh : Connection := blFresh.Accept

/-- A 7-byte buffer: longer than the burst 0 of the default limiters. -/
def bufSeven : List Nat := [1, 2, 3, 4, 5, 6, 7]

/-- C10 witness: on a freshly constructed listener (all quotas unlimited,
burst 0) a 7-byte Write and a 7-byte Read both complete at the start time
with the full underlying outcome, although the buffer exceeds the
configured burst 0. -/
theorem unlimited_limiters_admit_any_size_witness :
    ((bcFresh.Write blFresh bufSeven 0 undEcho).bytes = (undEcho bufSeven).1 ∧
      (bcFresh.Write blFresh bufSeven 0 undEcho).err =
        ((undEcho bufSeven).2).map OpError.streamErr ∧
      (bcFresh.Write blFresh bufSeven 0 undEcho).tEnd = 0 ∧
      Event.streamOp bufSeven ∈ (bcFresh.Write blFresh bufSeven 0 undEcho).trace) ∧
    ((bcFresh.Read blFresh bufSeven 0 undEcho).bytes = (undEcho bufSeven).1 ∧
      (bcFresh.Read blFresh bufSeven 0 undEcho).err =
        ((undEcho bufSeven).2).map OpError.streamErr ∧
      (bcFresh.Read blFresh bufSeven 0 undEcho).tEnd = 0 ∧
      Event.streamOp bufSeven ∈ (bcFresh.Read blFresh bufSeven 0 undEcho).trace) :=
  unlimited_limiters_admit_any_size bcFresh blFresh bufSeven 0 undEcho
    (by with_unfolding_all decide) (by with_unfolding_all decide)
    (by with_unfolding_all decide) (by with_unfolding_all decide)
    (by with_unfolding_all decide) (by with_unfolding_all decide)

/-- The C1 scenario: both per-connection quotas change after bcFresh was
accepted (write becomes rate 10 burst 10, read becomes rate 20 burst 20). -/
def blChanged : Listener :=
  blFresh.SetConnLimits (NewConfig (.fin 10) none) (NewConfig (.fin 20) none)

/-- The connection state after the Write that resynced against blChanged. -/
def bcAfterWrite : Connection := (bcFresh.Write blChanged [0] 0 undEcho).conn

/-- C1 evaluated at the failing input: after the quota change the Write
observes the fired handle, resyncs (write limiter becomes rate 10 burst
10) and remembers the fresh handle; the subsequent Read then sees no
fired handle, its resync step keeps the old unlimited read limiter
instead of the new canonical read quota rate 20 burst 20, and a 25-byte
Read is admitted instantly — while on a connection accepted after the
change the same Read is rejected with capacity-exceeded, since 25
exceeds the new burst 20. -/
theorem read_after_write_misses_read_quota :
    bcFresh.fired blChanged = true ∧
    (bcFresh.Write blChanged [0] 0 undEcho).err = none ∧
    bcAfterWrite.c = blChanged.gen ∧
    bcAfterWrite.connWriteLimiter.limit = Limit.fin 10 ∧
    bcAfterWrite.connWriteLimiter.burst = 10 ∧
    blChanged.limitReadConn = { limit := Limit.fin 20, burst := 20 } ∧
    (bcAfterWrite.resync blChanged false 1).connReadLimiter =
      bcAfterWrite.connReadLimiter ∧
    bcAfterWrite.connReadLimiter.limit = Limit.inf ∧
    (bcAfterWrite.Read blChanged (List.replicate 25 0) 1 undEcho).err = none ∧
    (bcAfterWrite.Read blChanged (List.replicate 25 0) 1 undEcho).tEnd = 1 ∧
    (blChanged.Accept.Read blChanged (List.replicate 25 0) 1 undEcho).err =
      some (.limitErr (.burstExceeded 25 20)) := by
  with_unfolding_all decide

example : blFresh.SetConnLimits NewUnlimitedConfig NewUnlimitedConfig = blFresh := by
  with_unfolding_all decide

example : blChanged.gen = blFresh.gen + 1 := by
  with_unfolding_all decide

example :
    (ConnectionV0.setLimiter ⟨ctxLive, ⟨.fin 1, 1, 0, 0⟩, 0⟩ (1, ⟨.fin 1, 1⟩) 1).limiter =
      ⟨Limit.fin 1, 1, 0, 0⟩ := by
  with_unfolding_all decide

end Bandwidth
